import Mathlib

/-!
Verification of `zerver/forms.py` (Zulip): subdomain validation, the login
authentication form, the password-reset dispatcher and its rate-limit key,
and the team-lookup form.  Python code is shallowly embedded as pure Lean
functions; external collaborators (Django, the authentication backends, the
rate-limiter store, the realm/user repositories) are passed in as explicit
parameters or modelled from the specification where noted.
-/

namespace ZulipForms

/-! ## Subdomain validation (`check_subdomain_available`) -/

/-- The four user-facing error strings of `check_subdomain_available`
(`error_strings` dict, forms.py lines 87-92). -/
def tooShortMsg : String := "Subdomain needs to have length 3 or greater."

def extremalDashMsg : String := "Subdomain cannot start or end with a \x27-\x27."

def badCharMsg : String := "Subdomain can only have lowercase letters, numbers, and \x27-\x27s."

def unavailableMsg : String := "Subdomain unavailable. Please choose a different one."

/-- Outcome of a call to `check_subdomain_available`: normal return,
`ValidationError(msg)`, or a Python `IndexError` escaping from the
`subdomain[0]` / `subdomain[-1]` accesses on an empty string. -/
inductive SubdomainOutcome where
  | ok : SubdomainOutcome
  | validationError (msg : String) : SubdomainOutcome
  | indexError : SubdomainOutcome
deriving DecidableEq, Repr

/-- Character class of the regex `[a-z0-9-]`. -/
def isLowerAlnumDash (c : Char) : Bool :=
  (decide ('a'.toNat ≤ c.toNat) && decide (c.toNat ≤ 'z'.toNat))
    || (decide ('0'.toNat ≤ c.toNat) && decide (c.toNat ≤ '9'.toNat))
    || decide (c = '-')

/-- Python `re.match("^[a-z0-9-]*$", s) is not None`: every character is in
`[a-z0-9-]`, or the same after removing one trailing newline (Python `$` also
matches just before a final newline). -/
def reMatchLowerAlnumDash (s : String) : Bool :=
  s.data.all isLowerAlnumDash
    || (s.data.getLast? = some (Char.ofNat 10) && s.data.dropLast.all isLowerAlnumDash)

/-- Shallow embedding of `check_subdomain_available` (forms.py lines 86-107).
The root-domain sentinel `Realm.SUBDOMAIN_FOR_ROOT_DOMAIN`, the
`is_root_domain_available()` oracle, the realm repository
(`Realm.objects.filter(string_id=subdomain).exists()`) and the reserved-word
oracle `is_reserved_subdomain` live outside this file's source and are passed
as parameters.  The check order is exactly the source order: sentinel,
extremal dash, character class, length, existing realm, reserved word. -/
def check_subdomain_available (sentinel : String) (rootDomainAvailable : Bool)
    (existingRealms : List String) (isReserved : String → Bool)
    (subdomain : String) (allowReservedSubdomain : Bool) : SubdomainOutcome :=
  if subdomain = sentinel then
    if rootDomainAvailable then .ok else .validationError unavailableMsg
  else if subdomain = "" then
    .indexError
  else if subdomain.data.head? = some (Char.ofNat 45)
      || subdomain.data.getLast? = some (Char.ofNat 45) then
    .validationError extremalDashMsg
  else if !reMatchLowerAlnumDash subdomain then
    .validationError badCharMsg
  else if subdomain.length < 3 then
    .validationError tooShortMsg
  else if subdomain ∈ existingRealms then
    .validationError unavailableMsg
  else if isReserved subdomain && !allowReservedSubdomain then
    .validationError unavailableMsg
  else
    .ok

/-! ## Team lookup (`MultiEmailField.to_python`, `FindMyTeamForm.clean_emails`) -/

/-- Python `str.strip()` whitespace test, restricted to the ASCII whitespace
characters (space, tab, newline, carriage return, vertical tab, form feed). -/
def isPySpace (c : Char) : Bool :=
  decide (c = Char.ofNat 32) || decide (c = Char.ofNat 9) || decide (c = Char.ofNat 10)
    || decide (c = Char.ofNat 13) || decide (c = Char.ofNat 11) || decide (c = Char.ofNat 12)

/-- Python `email.strip()`: drop leading and trailing whitespace. -/
def pyStrip (s : String) : String :=
  String.mk (((s.data.dropWhile isPySpace).reverse.dropWhile isPySpace).reverse)

/-- Shallow embedding of `MultiEmailField.to_python` (forms.py lines 472-477):
the empty string maps to the empty list; otherwise split on commas and strip
each entry. -/
def MultiEmailField_to_python (emails : String) : List String :=
  if emails = "" then []
  else (emails.splitOn ",").map pyStrip

/-- Shallow embedding of `FindMyTeamForm.clean_emails` (forms.py lines
489-494): reject lists of more than 10 entries with a `ValidationError`,
return the list unchanged otherwise. -/
def FindMyTeamForm_clean_emails (emails : List String) : Except String (List String) :=
  if emails.length > 10 then .error "Please enter at most 10 emails."
  else .ok emails

/-! ## String containment helper -/

/-- `startsWithChars l n`: `n` is a prefix of `l`. -/
def startsWithChars : List Char → List Char → Bool
  | _, [] => true
  | [], _ :: _ => false
  | c :: cs, d :: ds => c == d && startsWithChars cs ds

/-- `containsChars hay needle`: `needle` occurs contiguously in `hay`. -/
def containsChars : List Char → List Char → Bool
  | [], needle => needle.isEmpty
  | c :: t, needle => startsWithChars (c :: t) needle || containsChars t needle

/-- `strContainsSub hay needle`: `needle` is a substring of `hay`. -/
def strContainsSub (hay needle : String) : Bool :=
  containsChars hay.data needle.data

/-- ASCII lowercasing, modelling the case-insensitive email comparisons
(Python `str.lower()` / Django `__iexact`) on email addresses. -/
def lowerAscii (s : String) : String :=
  String.mk (s.data.map fun c =>
    if 65 ≤ c.toNat && c.toNat ≤ 90 then Char.ofNat (c.toNat + 32) else c)

/-! ## Login authentication (`OurAuthenticationForm.clean`) -/

/-- A user account (`UserProfile` row) as the authentication and
password-reset paths see it: delivery email, owning realm subdomain, numeric
id, active flag, mirror-dummy flag, and password hash (`none` means password
authentication is disabled for the account). -/
structure Identity where
  email : String
  realmSubdomain : String
  id : Nat
  isActive : Bool
  isMirrorDummy : Bool
  passwordHash : Option String
deriving DecidableEq, Repr

/-- The `return_data` dictionary flags that `OurAuthenticationForm.clean`
reads back from the authentication backend; `return_data.get(k)` on a missing
key is falsy, so each flag defaults to `false`. -/
structure ReturnData where
  inactive_realm : Bool := false
  password_reset_needed : Bool := false
  inactive_user : Bool := false
  is_mirror_dummy : Bool := false
  invalid_subdomain : Bool := false
deriving DecidableEq, Repr

/-- What the call to `authenticate(...)` in `clean` can do: raise
`RateLimited` (carrying `secs_to_freedom`, which may be absent) or return a
user (possibly `None`) after filling `return_data`. -/
inductive AuthResult where
  | rateLimited (secsToFreedom : Option Int) : AuthResult
  | ok (userCache : Option Identity) (rd : ReturnData) : AuthResult
deriving DecidableEq, Repr

inductive LogLevel where
  | info : LogLevel
  | warning : LogLevel
deriving DecidableEq, Repr

/-- A rendered server-side log entry. -/
structure LogEntry where
  level : LogLevel
  msg : String
deriving DecidableEq, Repr

/-- How a call to `OurAuthenticationForm.clean` ends: a user-facing
`ValidationError`, a fatal `AssertionError`, or a normal return of the
cleaned data. -/
inductive CleanOutcome where
  | validationError (msg : String) : CleanOutcome
  | assertionError (msg : String) : CleanOutcome
  | success : CleanOutcome
deriving DecidableEq, Repr

/-- `AUTHENTICATION_RATE_LIMITED_ERROR.format(secs_to_freedom)`
(forms.py lines 65-69 and 420). -/
def authRateLimitedMsg (secs : Int) : String :=
  "You\x27re making too many attempts to sign in. Try again in "
    ++ toString secs
    ++ " seconds or contact your organization administrator for help."

def PASSWORD_RESET_NEEDED_ERROR : String :=
  "Your password has been disabled because it is too weak. "
    ++ "Reset your password to create a new one."

def DEACTIVATED_ACCOUNT_ERROR : String :=
  "Your account is no longer active. "
    ++ "Please contact your organization administrator to reactivate it."

def WRONG_SUBDOMAIN_ERROR : String :=
  "Your Zulip account is not a member of the "
    ++ "organization associated with this subdomain.  "
    ++ "Please contact your organization administrator with any questions."

/-- Django `AuthenticationForm.error_messages["invalid_login"]`, rendered
with Zulip's username field. -/
def INVALID_LOGIN_ERROR : String :=
  "Please enter a correct email and password. Note that both fields may be case-sensitive."

/-- Django `AuthenticationForm.error_messages["inactive"]`, raised by the
inherited `confirm_login_allowed` when the user it is given is inactive. -/
def INACTIVE_ACCOUNT_ERROR : String := "This account is inactive."

/-- The warning produced on the `invalid_subdomain` path (forms.py lines
435-437), with the `%s` placeholders rendered. -/
def wrongSubdomainLogMsg (username subdomain : String) : String :=
  "User " ++ username ++ " attempted password login to wrong subdomain " ++ subdomain

/-- Shallow embedding of `OurAuthenticationForm.clean` (forms.py lines
400-449).  The call to `authenticate` is abstracted by its observable result
`auth`; `subdomain` is `get_subdomain(self.request)`.  Returns the outcome
together with the log entries emitted.  If the username is missing or the
password empty (falsy), the whole guarded block is skipped and the cleaned
data is returned unchanged.  `confirm_login_allowed` is Django's inherited
check rejecting an inactive user. -/
def OurAuthenticationForm_clean (username : Option String) (password : String)
    (subdomain : String) (auth : AuthResult) : CleanOutcome × List LogEntry :=
  match username with
  | none => (.success, [])
  | some uname =>
    if password = "" then (.success, [])
    else
      match auth with
      | .rateLimited none =>
        (.assertionError "secs_to_freedom is None", [])
      | .rateLimited (some secs) =>
        (.validationError (authRateLimitedMsg secs), [])
      | .ok userCache rd =>
        if rd.inactive_realm then
          (.assertionError "Programming error: inactive realm in authentication form", [])
        else if rd.password_reset_needed then
          (.validationError PASSWORD_RESET_NEEDED_ERROR, [])
        else if rd.inactive_user && !rd.is_mirror_dummy then
          (.validationError DEACTIVATED_ACCOUNT_ERROR, [])
        else if rd.invalid_subdomain then
          (.validationError WRONG_SUBDOMAIN_ERROR,
            [⟨.warning, wrongSubdomainLogMsg uname subdomain⟩])
        else
          match userCache with
          | none => (.validationError INVALID_LOGIN_ERROR, [])
          | some u =>
            if !u.isActive then (.validationError INACTIVE_ACCOUNT_ERROR, [])
            else (.success, [])

/-- Modelled from the spec: the authentication backend
(`zproject.backends.authenticate`, not under `src/`), per spec sections
4.4-4.5.  The rate limiter for the (username, realm) key is consulted first;
if limited, `RateLimited(secs)` is raised and no credential comparison
occurs.  Otherwise the identity is looked up scoped to the given realm
(email compared case-insensitively): a missing password hash signals
password-reset-needed without attempting comparison; an inactive identity
signals `inactive_user` together with its mirror-dummy flag and no user is
returned; an active identity is compared through the hasher, yielding the
user on a match and invalid credentials otherwise.  A credential match in a
different realm than requested sets `invalid_subdomain` (WrongRealm), not
success.  Returns the backend result paired with the number of password-hash
comparisons performed. -/
def specAuthenticate (limited : Bool) (secs : Int) (identities : List Identity)
    (hasherVerify : String → String → Bool)
    (username password realmSub : String) : AuthResult × Nat :=
  if limited then (.rateLimited (some secs), 0)
  else
    match identities.find? fun i =>
        lowerAscii i.email = lowerAscii username && i.realmSubdomain = realmSub with
    | some i =>
      match i.passwordHash with
      | none => (.ok none { password_reset_needed := true }, 0)
      | some h =>
        if !i.isActive then
          (.ok none { inactive_user := true, is_mirror_dummy := i.isMirrorDummy }, 0)
        else if hasherVerify h password then (.ok (some i) {}, 1)
        else (.ok none {}, 1)
    | none =>
      match identities.find? fun i => lowerAscii i.email = lowerAscii username with
      | some i =>
        match i.passwordHash with
        | none => (.ok none {}, 0)
        | some h =>
          if hasherVerify h password then (.ok none { invalid_subdomain := true }, 1)
          else (.ok none {}, 1)
      | none => (.ok none {}, 0)

/-- The authentication decision pipeline: the spec-modelled backend composed
with `OurAuthenticationForm.clean`.  Returns the form outcome, the log
entries, and the number of password-hash comparisons performed. -/
def authDecide (limited : Bool) (secs : Int) (identities : List Identity)
    (hasherVerify : String → String → Bool)
    (username password realmSub : String) : (CleanOutcome × List LogEntry) × Nat :=
  match specAuthenticate limited secs identities hasherVerify username password realmSub with
  | (res, hashes) =>
    (OurAuthenticationForm_clean (some username) password realmSub res, hashes)

/-! ## Password reset (`ZulipPasswordResetForm.save` and its rate-limit key) -/

/-- A realm (tenant) as the password-reset path sees it. -/
structure Realm where
  subdomain : String
  name : String
  uri : String
  deactivated : Bool
deriving DecidableEq, Repr

/-- `RateLimitedPasswordResetByEmail.key` (forms.py lines 381-382):
`f"{type(self).__name__}:{self.email}"` with the email exactly as stored on
the object. -/
def RateLimitedPasswordResetByEmail_key (email : String) : String :=
  "RateLimitedPasswordResetByEmail:" ++ email

/-- `rate_limit_password_reset_form_by_email` (forms.py lines 388-391): ask
the rate limiter about the object's key and raise `RateLimited` exactly when
it reports limited.  The limiter's window machinery
(`RateLimitedObject.rate_limit`, not under `src/`) is abstracted as a
predicate `isLimited` on keys; `.error ()` is the raised `RateLimited`. -/
def rate_limit_password_reset_form_by_email (isLimited : String → Bool)
    (email : String) : Except Unit Unit :=
  if isLimited (RateLimitedPasswordResetByEmail_key email) then .error ()
  else .ok ()

/-- Modelled from the spec: `get_user_by_delivery_email` (`zerver.models`,
not under `src/`) looks up the identity by email within the realm,
case-insensitively. -/
def get_user_by_delivery_email (email : String) (realm : Realm)
    (users : List Identity) : Option Identity :=
  users.find? fun u =>
    lowerAscii u.email = lowerAscii email && u.realmSubdomain = realm.subdomain

/-- Shallow embedding of `generate_password_reset_url` (forms.py lines
271-277).  The Django collaborators are parameters: `makeToken` is
`token_generator.make_token(user_profile)`, `urlsafeB64Encode` is
`urlsafe_base64_encode(str(user_profile.id).encode())` applied to the
decimal rendering of the id, and `reverseConfirm` is
`reverse("password_reset_confirm", kwargs=dict(uidb64=uid, token=token))`.
The result is `f"{user_profile.realm.uri}{endpoint}"`; the caller passes the
user's realm uri as `realmUri`. -/
def generate_password_reset_url (makeToken : Identity → String)
    (urlsafeB64Encode : String → String)
    (reverseConfirm : (uidb64 : String) → (token : String) → String)
    (realmUri : String) (userProfile : Identity) : String :=
  let token := makeToken userProfile
  let uid := urlsafeB64Encode (toString userProfile.id)
  let endpoint := reverseConfirm uid token
  realmUri ++ endpoint

/-- The template context `ZulipPasswordResetForm.save` hands to
`send_email`.  A `none` / `[]` field stands for a key that is absent from
the Python dict. -/
structure ResetContext where
  email : String
  realmUri : String
  realmName : String
  userDeactivated : Bool := false
  activeAccountInRealm : Bool
  resetUrl : Option String := none
  activeAccountsInOtherRealms : List Nat := []
deriving DecidableEq, Repr

/-- Recipient selector of a `send_email` call: `to_user_ids` or
`to_emails`. -/
inductive Recipient where
  | byUserIds (ids : List Nat) : Recipient
  | byEmails (emails : List String) : Recipient
deriving DecidableEq, Repr

/-- One outbound `send_email` call as `ZulipPasswordResetForm.save` issues
it: template, recipient selector, explicit language (absent on the
`to_user_ids` branch, where the recipient's own locale applies downstream),
and the template context. -/
structure EmailSent where
  template : String
  recipient : Recipient
  language : Option String
  context : ResetContext
deriving DecidableEq, Repr

/-- The externally observable shape of an outbound email: template,
recipient selector and explicit language, without the template context. -/
def emailShape (e : EmailSent) : String × Recipient × Option String :=
  (e.template, e.recipient, e.language)

/-- Deployment/backend gates that `ZulipPasswordResetForm.save` consults,
all external to `src/`: `email_auth_enabled(realm)`,
`email_belongs_to_ldap(realm, email)`, `settings.RATE_LIMITING`, and the
rate-limiter's verdict per key. -/
structure ResetConfig where
  emailAuthEnabled : Bool
  emailBelongsToLdap : Bool
  rateLimiting : Bool
  isLimited : String → Bool

/-- Shallow embedding of `ZulipPasswordResetForm.save` (forms.py lines
281-373).  The function always returns; its observable behaviour is the list
of `send_email` calls and the list of log entries.  `makeToken`,
`urlsafeB64Encode` and `reverseConfirm` are the Django collaborators of
`generate_password_reset_url` (the `token_generator` argument of `save` and
the imported helpers).  Gate order follows the source: password-auth
disabled, LDAP-managed email, deactivated realm, rate limit (only when
`settings.RATE_LIMITING`), then the user lookup: a found-but-inactive user
is discarded (with `user_deactivated` recorded in the context), so it takes
the same sending branch as a missing user. -/
def ZulipPasswordResetForm_save (cfg : ResetConfig)
    (makeToken : Identity → String) (urlsafeB64Encode : String → String)
    (reverseConfirm : (uidb64 : String) → (token : String) → String)
    (email : String) (realm : Realm) (users : List Identity)
    (requestLanguage : String) : List EmailSent × List LogEntry :=
  if !cfg.emailAuthEnabled then
    ([], [⟨.info, "Password reset attempted for " ++ email
        ++ " even though password auth is disabled."⟩])
  else if cfg.emailBelongsToLdap then
    ([], [⟨.info, "Password reset not allowed for user in LDAP domain"⟩])
  else if realm.deactivated then
    ([], [⟨.info, "Realm is deactivated"⟩])
  else if cfg.rateLimiting
      && (match rate_limit_password_reset_form_by_email cfg.isLimited email with
          | .error _ => true
          | .ok _ => false) then
    ([], [⟨.info, "Too many password reset attempts for email " ++ email⟩])
  else
    let user0 := get_user_by_delivery_email email realm users
    let userDeactivated := match user0 with
      | some u => !u.isActive
      | none => false
    let user : Option Identity := match user0 with
      | some u => if u.isActive then some u else none
      | none => none
    match user with
    | some u =>
      ([{ template := "zerver/emails/password_reset"
          recipient := .byUserIds [u.id]
          language := none
          context :=
            { email := email, realmUri := realm.uri, realmName := realm.name
              activeAccountInRealm := true
              resetUrl := some (generate_password_reset_url makeToken
                urlsafeB64Encode reverseConfirm realm.uri u) } }], [])
    | none =>
      let others := (users.filter fun u =>
        lowerAscii u.email = lowerAscii email && u.isActive).map Identity.id
      ([{ template := "zerver/emails/password_reset"
          recipient := .byEmails [email]
          language := some requestLanguage
          context :=
            { email := email, realmUri := realm.uri, realmName := realm.name
              userDeactivated := userDeactivated
              activeAccountInRealm := false
              activeAccountsInOtherRealms := others } }], [])

/-! ## Theorems -/

/-- Claim C5, counterexample.  The claim says every non-sentinel subdomain of
length < 3 yields the TooShort error regardless of leading/trailing dashes or
bad characters, the length check coming first.  In the code the dash and
character checks come first: `"-a"` (length 2) yields the extremal-dash
error and `"A"` (length 1) yields the bad-character error, neither the
too-short error. -/
theorem c5_short_subdomain_counterexample :
    ("-a".length < 3
      ∧ check_subdomain_available "" true [] (fun _ => false) "-a" false
          = .validationError extremalDashMsg
      ∧ extremalDashMsg ≠ tooShortMsg)
    ∧ ("A".length < 3
      ∧ check_subdomain_available "" true [] (fun _ => false) "A" false
          = .validationError badCharMsg
      ∧ badCharMsg ≠ tooShortMsg) := by
  decide

/-- Claim C5 (amended): for every non-sentinel, non-empty subdomain of
length < 3 that does not start or end with a dash and whose characters all
lie in `[a-z0-9-]`, `check_subdomain_available` fails with the TooShort
error regardless of the existing-realm set, the reserved-word set and
`allow_reserved_subdomain`; the dash and character checks are applied before
the length check. -/
theorem subdomain_too_short (sentinel : String) (rootAvail : Bool)
    (existing : List String) (isReserved : String → Bool) (allowReserved : Bool)
    (subdomain : String)
    (hsent : subdomain ≠ sentinel) (hempty : subdomain ≠ "")
    (hlen : subdomain.length < 3)
    (hhead : subdomain.data.head? ≠ some '-')
    (hlast : subdomain.data.getLast? ≠ some '-')
    (hchars : reMatchLowerAlnumDash subdomain = true) :
    check_subdomain_available sentinel rootAvail existing isReserved subdomain allowReserved
      = .validationError tooShortMsg := by
  simp [check_subdomain_available, hsent, hempty, hhead, hlast, hchars, hlen]

/-- Witness for C5 (amended): `"ab"` is too short even though the reserved
oracle claims every subdomain (including `"ab"`) is reserved and `"ab"` is
in the existing-realm list. -/
theorem subdomain_too_short_witness :
    check_subdomain_available "zuliproot" true ["ab"] (fun _ => true) "ab" false
      = .validationError tooShortMsg :=
  subdomain_too_short "zuliproot" true ["ab"] (fun _ => true) false "ab"
    (by decide) (by decide) (by decide) (by decide) (by decide) (by decide)

/-- Claim C9: on any input that is non-empty or equal to the root-domain
sentinel, `check_subdomain_available` either returns normally or raises a
`ValidationError` carrying one of exactly four fixed messages; on an empty
input different from the sentinel, the `subdomain[0]` access in the
extremal-dash check raises an out-of-bounds `IndexError`, so non-emptiness
is a genuine precondition. -/
theorem subdomain_check_totality (sentinel : String) (rootAvail : Bool)
    (existing : List String) (isReserved : String → Bool) (allowReserved : Bool)
    (subdomain : String) :
    (subdomain ≠ "" ∨ subdomain = sentinel →
      check_subdomain_available sentinel rootAvail existing isReserved subdomain allowReserved
          = .ok
        ∨ check_subdomain_available sentinel rootAvail existing isReserved subdomain allowReserved
          = .validationError tooShortMsg
        ∨ check_subdomain_available sentinel rootAvail existing isReserved subdomain allowReserved
          = .validationError extremalDashMsg
        ∨ check_subdomain_available sentinel rootAvail existing isReserved subdomain allowReserved
          = .validationError badCharMsg
        ∨ check_subdomain_available sentinel rootAvail existing isReserved subdomain allowReserved
          = .validationError unavailableMsg)
    ∧ (subdomain = "" ∧ subdomain ≠ sentinel →
      check_subdomain_available sentinel rootAvail existing isReserved subdomain allowReserved
        = .indexError) := by
  constructor
  · intro hpre
    unfold check_subdomain_available
    split_ifs with h1 h2 h3 h4 h5 h6 h7 h8
    · exact Or.inl rfl
    · exact Or.inr (Or.inr (Or.inr (Or.inr rfl)))
    · rcases hpre with h | h
      · exact absurd h3 h
      · exact absurd h h1
    · exact Or.inr (Or.inr (Or.inl rfl))
    · exact Or.inr (Or.inr (Or.inr (Or.inl rfl)))
    · exact Or.inr (Or.inl rfl)
    · exact Or.inr (Or.inr (Or.inr (Or.inr rfl)))
    · exact Or.inr (Or.inr (Or.inr (Or.inr rfl)))
    · exact Or.inl rfl
  · rintro ⟨he, hne⟩
    subst he
    simp [check_subdomain_available, hne]

/-- Witness for C9: `"ab!"` (non-empty) hits one of the four validation
errors, and the empty string with a non-empty sentinel hits the
`IndexError`. -/
theorem subdomain_check_totality_witness :
    (check_subdomain_available "zuliproot" true [] (fun _ => false) "ab!" false = .ok
      ∨ check_subdomain_available "zuliproot" true [] (fun _ => false) "ab!" false
        = .validationError tooShortMsg
      ∨ check_subdomain_available "zuliproot" true [] (fun _ => false) "ab!" false
        = .validationError extremalDashMsg
      ∨ check_subdomain_available "zuliproot" true [] (fun _ => false) "ab!" false
        = .validationError badCharMsg
      ∨ check_subdomain_available "zuliproot" true [] (fun _ => false) "ab!" false
        = .validationError unavailableMsg)
    ∧ check_subdomain_available "zuliproot" true [] (fun _ => false) "" false = .indexError :=
  ⟨(subdomain_check_totality "zuliproot" true [] (fun _ => false) false "ab!").1
      (Or.inl (by decide)),
   (subdomain_check_totality "zuliproot" true [] (fun _ => false) false "").2
      ⟨rfl, by decide⟩⟩

/-- Claim C10: `MultiEmailField.to_python` maps the empty string to the empty
list and otherwise splits on commas stripping surrounding whitespace, and
`FindMyTeamForm.clean_emails` accepts the parsed list exactly when it has at
most 10 entries, rejecting longer lists with a validation error. -/
theorem find_my_team_bounds :
    MultiEmailField_to_python "" = []
    ∧ (∀ s : String, s ≠ "" →
        MultiEmailField_to_python s = (s.splitOn ",").map pyStrip)
    ∧ (∀ emails : List String,
        FindMyTeamForm_clean_emails emails = .ok emails ↔ emails.length ≤ 10)
    ∧ (∀ emails : List String, emails.length > 10 →
        FindMyTeamForm_clean_emails emails = .error "Please enter at most 10 emails.") := by
  refine ⟨rfl, fun s hs => ?_, fun emails => ?_, fun emails h => ?_⟩
  · simp [MultiEmailField_to_python, hs]
  · constructor
    · intro h
      by_contra hlen
      simp [FindMyTeamForm_clean_emails, Nat.lt_of_not_le hlen] at h
    · intro h
      simp [FindMyTeamForm_clean_emails, Nat.not_lt.mpr h]
  · simp [FindMyTeamForm_clean_emails, h]

/-- Witness for C10 at concrete inputs: a two-entry input is split and
stripped, an 11-entry list is over the bound. -/
theorem find_my_team_bounds_witness :
    MultiEmailField_to_python "a@x.com, b@x.com"
        = (("a@x.com, b@x.com").splitOn ",").map pyStrip
    ∧ FindMyTeamForm_clean_emails ["a", "b", "c", "d", "e", "f", "g", "h", "i", "j", "k"]
        = .error "Please enter at most 10 emails." :=
  ⟨find_my_team_bounds.2.1 "a@x.com, b@x.com" (by decide),
   find_my_team_bounds.2.2.2 ["a", "b", "c", "d", "e", "f", "g", "h", "i", "j", "k"]
      (by decide)⟩

/-- Claim C1: when the rate limiter reports the attempt limited, the
pipeline ends in a `ValidationError` whose message embeds the integer
seconds-to-retry, emits no log, and performs zero password-hash
comparisons; the result is a constant independent of the identity store,
the hasher and the password, so no credential comparison and no other
account-state check affects a limited attempt. -/
theorem auth_rate_limited_short_circuits (username password realmSub : String)
    (secs : Int) (identities : List Identity)
    (hasherVerify : String → String → Bool) (hp : password ≠ "") :
    authDecide true secs identities hasherVerify username password realmSub
      = ((.validationError (authRateLimitedMsg secs), []), 0)
    ∧ ∃ pre post, authRateLimitedMsg secs = pre ++ toString secs ++ post := by
  constructor
  · simp [authDecide, specAuthenticate, OurAuthenticationForm_clean, hp]
  · exact ⟨"You\x27re making too many attempts to sign in. Try again in ",
      " seconds or contact your organization administrator for help.",
      by simp [authRateLimitedMsg, String.append_assoc]⟩

/-- Witness for C1: a limited attempt with a would-match hasher and a
populated identity store still yields the rate-limited error and zero hash
comparisons. -/
theorem auth_rate_limited_short_circuits_witness :
    authDecide true 17 [⟨"bob", "acme", 1, true, false, some "H"⟩]
        (fun _ _ => true) "bob" "pw" "acme"
      = ((.validationError (authRateLimitedMsg 17), []), 0)
    ∧ ∃ pre post, authRateLimitedMsg 17 = pre ++ toString (17 : Int) ++ post :=
  auth_rate_limited_short_circuits "bob" "pw" "acme" 17
    [⟨"bob", "acme", 1, true, false, some "H"⟩] (fun _ _ => true) (by decide)

/-- Claim C2: whenever the backend sets `inactive_realm`, the form raises the
fatal `AssertionError` (never a user-facing `ValidationError`), regardless of
every other `return_data` flag and of the returned user, so this check
precedes the password-reset-needed, deactivated-account and wrong-subdomain
outcomes. -/
theorem inactive_realm_is_assertion_error (username password subdomain : String)
    (userCache : Option Identity) (rd : ReturnData)
    (hp : password ≠ "") (h : rd.inactive_realm = true) :
    OurAuthenticationForm_clean (some username) password subdomain (.ok userCache rd)
      = (.assertionError "Programming error: inactive realm in authentication form", []) := by
  simp [OurAuthenticationForm_clean, hp, h]

/-- Witness for C2: `inactive_realm` together with every other flag set and a
user returned still gives the `AssertionError`. -/
theorem inactive_realm_is_assertion_error_witness :
    OurAuthenticationForm_clean (some "bob") "pw" "acme"
        (.ok (some ⟨"bob", "acme", 1, true, false, some "H"⟩)
          ⟨true, true, true, true, true⟩)
      = (.assertionError "Programming error: inactive realm in authentication form", []) :=
  inactive_realm_is_assertion_error "bob" "pw" "acme"
    (some ⟨"bob", "acme", 1, true, false, some "H"⟩)
    ⟨true, true, true, true, true⟩ (by decide) rfl

/-- Claim C3: an attempt whose matched identity is inactive yields the
deactivated-account error when the identity is not a mirror dummy
(irrespective of the later subdomain check and of the returned user), and
when it is a mirror dummy the attempt falls through to the generic
invalid-credentials error — the very outcome of an attempt for which the
backend found no account at all. -/
theorem inactive_user_mirror_dummy_dichotomy (username password subdomain : String)
    (rd : ReturnData) (hp : password ≠ "")
    (h1 : rd.inactive_realm = false) (h2 : rd.password_reset_needed = false)
    (h3 : rd.inactive_user = true) :
    (rd.is_mirror_dummy = false →
      ∀ userCache,
        OurAuthenticationForm_clean (some username) password subdomain (.ok userCache rd)
          = (.validationError DEACTIVATED_ACCOUNT_ERROR, []))
    ∧ (rd.is_mirror_dummy = true → rd.invalid_subdomain = false →
      OurAuthenticationForm_clean (some username) password subdomain (.ok none rd)
          = (.validationError INVALID_LOGIN_ERROR, [])
        ∧ OurAuthenticationForm_clean (some username) password subdomain (.ok none rd)
          = OurAuthenticationForm_clean (some username) password subdomain (.ok none {})) := by
  constructor
  · intro hmd userCache
    simp [OurAuthenticationForm_clean, hp, h1, h2, h3, hmd]
  · intro hmd hsub
    constructor
    · simp [OurAuthenticationForm_clean, hp, h1, h2, h3, hmd, hsub]
    · simp [OurAuthenticationForm_clean, hp, h1, h2, h3, hmd, hsub]

/-- Witness for C3: a non-dummy inactive account is reported deactivated; a
mirror-dummy inactive account gets the same invalid-credentials outcome as a
no-account attempt. -/
theorem inactive_user_mirror_dummy_dichotomy_witness :
    OurAuthenticationForm_clean (some "bob") "pw" "acme"
        (.ok none ⟨false, false, true, false, false⟩)
      = (.validationError DEACTIVATED_ACCOUNT_ERROR, [])
    ∧ OurAuthenticationForm_clean (some "bob") "pw" "acme"
        (.ok none ⟨false, false, true, true, false⟩)
      = (.validationError INVALID_LOGIN_ERROR, []) :=
  ⟨(inactive_user_mirror_dummy_dichotomy "bob" "pw" "acme"
      ⟨false, false, true, false, false⟩ (by decide) rfl rfl rfl).1 rfl none,
   ((inactive_user_mirror_dummy_dichotomy "bob" "pw" "acme"
      ⟨false, false, true, true, false⟩ (by decide) rfl rfl rfl).2 rfl rfl).1⟩

/-- Claim C4, counterexample.  The claim says the warning log on a
wrong-realm attempt contains both subdomain names.  Concretely: the identity
`bob` exists only in realm `acme` with hash `H`; logging in with the correct
password against realm `other` yields the wrong-subdomain error, but the one
warning entry emitted does not contain the identity's own subdomain
`acme`. -/
theorem wrong_realm_log_counterexample :
    authDecide false 0 [⟨"bob", "acme", 1, true, false, some "H"⟩]
        (fun h p => h == "H" && p == "pw") "bob" "pw" "other"
      = ((.validationError WRONG_SUBDOMAIN_ERROR,
          [⟨.warning, "User bob attempted password login to wrong subdomain other"⟩]), 1)
    ∧ strContainsSub "User bob attempted password login to wrong subdomain other" "acme"
        = false := by
  decide

/-- Claim C4 (amended): a login attempt that yields the wrong-realm outcome
receives the fixed wrong-subdomain error message, and a warning-level log
entry is produced containing the username and the subdomain the login was
attempted against (the subdomain of the realm the identity belongs to is not
part of the log entry). -/
theorem wrong_realm_outcome_and_log (username password subdomain : String)
    (userCache : Option Identity) (rd : ReturnData) (hp : password ≠ "")
    (h1 : rd.inactive_realm = false) (h2 : rd.password_reset_needed = false)
    (h3 : (rd.inactive_user && !rd.is_mirror_dummy) = false)
    (h4 : rd.invalid_subdomain = true) :
    OurAuthenticationForm_clean (some username) password subdomain (.ok userCache rd)
      = (.validationError WRONG_SUBDOMAIN_ERROR,
         [⟨.warning, wrongSubdomainLogMsg username subdomain⟩])
    ∧ (∃ pre post, wrongSubdomainLogMsg username subdomain = pre ++ username ++ post)
    ∧ (∃ pre post, wrongSubdomainLogMsg username subdomain = pre ++ subdomain ++ post) := by
  refine ⟨?_, ?_, ?_⟩
  · simp [OurAuthenticationForm_clean, hp, h1, h2, h3, h4]
  · exact ⟨"User ", " attempted password login to wrong subdomain " ++ subdomain,
      by simp [wrongSubdomainLogMsg, String.append_assoc]⟩
  · exact ⟨"User " ++ username ++ " attempted password login to wrong subdomain ", "",
      by simp [wrongSubdomainLogMsg, String.append_assoc]⟩

/-- Witness for C4 (amended) at a concrete wrong-realm attempt. -/
theorem wrong_realm_outcome_and_log_witness :
    OurAuthenticationForm_clean (some "bob") "pw" "other"
        (.ok none ⟨false, false, false, false, true⟩)
      = (.validationError WRONG_SUBDOMAIN_ERROR,
         [⟨.warning, wrongSubdomainLogMsg "bob" "other"⟩])
    ∧ (∃ pre post, wrongSubdomainLogMsg "bob" "other" = pre ++ "bob" ++ post)
    ∧ (∃ pre post, wrongSubdomainLogMsg "bob" "other" = pre ++ "other" ++ post) :=
  wrong_realm_outcome_and_log "bob" "pw" "other" none
    ⟨false, false, false, false, true⟩ (by decide) rfl rfl rfl rfl

/-- Claim C6: past the early-exit gates, a submitted email with no matching
account in the realm and one matching a deactivated account produce the same
external side-effect shape — exactly one email of the account-not-found
variant, addressed to the submitted address itself with the locale taken
from the request — while only a found-and-active account receives the
reset-link variant addressed by its user id. -/
theorem password_reset_anti_enumeration (cfg : ResetConfig)
    (makeToken : Identity → String) (urlsafeB64Encode : String → String)
    (reverseConfirm : String → String → String) (email : String)
    (realm : Realm) (users1 users2 : List Identity) (u : Identity) (lang : String)
    (hAuth : cfg.emailAuthEnabled = true) (hLdap : cfg.emailBelongsToLdap = false)
    (hDeact : realm.deactivated = false)
    (hRate : cfg.rateLimiting = false
      ∨ cfg.isLimited (RateLimitedPasswordResetByEmail_key email) = false)
    (h1 : get_user_by_delivery_email email realm users1 = none)
    (h2 : get_user_by_delivery_email email realm users2 = some u)
    (hu : u.isActive = false) :
    (ZulipPasswordResetForm_save cfg makeToken urlsafeB64Encode reverseConfirm
        email realm users1 lang).1.map emailShape
        = [("zerver/emails/password_reset", Recipient.byEmails [email], some lang)]
    ∧ (ZulipPasswordResetForm_save cfg makeToken urlsafeB64Encode reverseConfirm
        email realm users2 lang).1.map emailShape
        = [("zerver/emails/password_reset", Recipient.byEmails [email], some lang)]
    ∧ ∀ (users3 : List Identity) (v : Identity),
        get_user_by_delivery_email email realm users3 = some v → v.isActive = true →
        (ZulipPasswordResetForm_save cfg makeToken urlsafeB64Encode reverseConfirm
            email realm users3 lang).1
          = [{ template := "zerver/emails/password_reset"
               recipient := .byUserIds [v.id]
               language := none
               context :=
                { email := email, realmUri := realm.uri, realmName := realm.name
                  activeAccountInRealm := true
                  resetUrl := some (generate_password_reset_url makeToken
                    urlsafeB64Encode reverseConfirm realm.uri v) } }] := by
  have hrl : (cfg.rateLimiting
      && (match rate_limit_password_reset_form_by_email cfg.isLimited email with
          | .error _ => true
          | .ok _ => false)) = false := by
    rcases hRate with h | h
    · simp [h]
    · simp [rate_limit_password_reset_form_by_email, h]
  refine ⟨?_, ?_, ?_⟩
  · simp [ZulipPasswordResetForm_save, hAuth, hLdap, hDeact, hrl, h1, emailShape]
  · simp [ZulipPasswordResetForm_save, hAuth, hLdap, hDeact, hrl, h2, hu, emailShape]
  · intro users3 v h3 hv
    simp [ZulipPasswordResetForm_save, hAuth, hLdap, hDeact, hrl, h3, hv]

/-- Witness for C6: realm `acme`; no account for `bob@x.com`, a deactivated
account, and an active account with id 7; concrete token generator, base64
encoder and URL reverser. -/
theorem password_reset_anti_enumeration_witness :
    (ZulipPasswordResetForm_save ⟨true, false, true, fun _ => false⟩
        (fun _ => "tok") (fun s => "b64-" ++ s)
        (fun uid token => "/confirm/" ++ uid ++ "/" ++ token) "bob@x.com"
        ⟨"acme", "Acme", "https://acme.example.com", false⟩ [] "de").1.map emailShape
      = [("zerver/emails/password_reset", Recipient.byEmails ["bob@x.com"], some "de")]
    ∧ (ZulipPasswordResetForm_save ⟨true, false, true, fun _ => false⟩
        (fun _ => "tok") (fun s => "b64-" ++ s)
        (fun uid token => "/confirm/" ++ uid ++ "/" ++ token) "bob@x.com"
        ⟨"acme", "Acme", "https://acme.example.com", false⟩
        [⟨"Bob@x.com", "acme", 7, false, false, some "H"⟩] "de").1.map emailShape
      = [("zerver/emails/password_reset", Recipient.byEmails ["bob@x.com"], some "de")]
    ∧ (ZulipPasswordResetForm_save ⟨true, false, true, fun _ => false⟩
        (fun _ => "tok") (fun s => "b64-" ++ s)
        (fun uid token => "/confirm/" ++ uid ++ "/" ++ token) "bob@x.com"
        ⟨"acme", "Acme", "https://acme.example.com", false⟩
        [⟨"Bob@x.com", "acme", 7, true, false, some "H"⟩] "de").1
      = [{ template := "zerver/emails/password_reset"
           recipient := .byUserIds [7]
           language := none
           context :=
            { email := "bob@x.com", realmUri := "https://acme.example.com"
              realmName := "Acme", activeAccountInRealm := true
              resetUrl := some (generate_password_reset_url (fun _ => "tok")
                (fun s => "b64-" ++ s)
                (fun uid token => "/confirm/" ++ uid ++ "/" ++ token)
                "https://acme.example.com"
                ⟨"Bob@x.com", "acme", 7, true, false, some "H"⟩) } }] :=
  ⟨(password_reset_anti_enumeration ⟨true, false, true, fun _ => false⟩
      (fun _ => "tok") (fun s => "b64-" ++ s)
      (fun uid token => "/confirm/" ++ uid ++ "/" ++ token) "bob@x.com"
      ⟨"acme", "Acme", "https://acme.example.com", false⟩ []
      [⟨"Bob@x.com", "acme", 7, false, false, some "H"⟩]
      ⟨"Bob@x.com", "acme", 7, false, false, some "H"⟩ "de"
      rfl rfl rfl (Or.inr rfl) (by decide) (by decide) rfl).1,
   (password_reset_anti_enumeration ⟨true, false, true, fun _ => false⟩
      (fun _ => "tok") (fun s => "b64-" ++ s)
      (fun uid token => "/confirm/" ++ uid ++ "/" ++ token) "bob@x.com"
      ⟨"acme", "Acme", "https://acme.example.com", false⟩ []
      [⟨"Bob@x.com", "acme", 7, false, false, some "H"⟩]
      ⟨"Bob@x.com", "acme", 7, false, false, some "H"⟩ "de"
      rfl rfl rfl (Or.inr rfl) (by decide) (by decide) rfl).2.1,
   (password_reset_anti_enumeration ⟨true, false, true, fun _ => false⟩
      (fun _ => "tok") (fun s => "b64-" ++ s)
      (fun uid token => "/confirm/" ++ uid ++ "/" ++ token) "bob@x.com"
      ⟨"acme", "Acme", "https://acme.example.com", false⟩ []
      [⟨"Bob@x.com", "acme", 7, false, false, some "H"⟩]
      ⟨"Bob@x.com", "acme", 7, false, false, some "H"⟩ "de"
      rfl rfl rfl (Or.inr rfl) (by decide) (by decide) rfl).2.2
      [⟨"Bob@x.com", "acme", 7, true, false, some "H"⟩]
      ⟨"Bob@x.com", "acme", 7, true, false, some "H"⟩ (by decide) rfl⟩

/-- Claim C7: `ZulipPasswordResetForm.save` always returns (the embedding is
a total function into its side-effect trace); in order it exits early — with
zero emails sent and exactly one informational log entry — when password
auth is disabled, when the email belongs to the LDAP domain, when the realm
is deactivated, and when rate limiting is enabled and reports the email's
key limited.  Each earlier gate fires irrespective of the later ones. -/
theorem password_reset_early_exit_order (cfg : ResetConfig)
    (makeToken : Identity → String) (urlsafeB64Encode : String → String)
    (reverseConfirm : String → String → String) (email : String)
    (realm : Realm) (users : List Identity) (lang : String) :
    (cfg.emailAuthEnabled = false →
      ZulipPasswordResetForm_save cfg makeToken urlsafeB64Encode reverseConfirm
          email realm users lang
        = ([], [⟨.info, "Password reset attempted for " ++ email
            ++ " even though password auth is disabled."⟩]))
    ∧ (cfg.emailAuthEnabled = true → cfg.emailBelongsToLdap = true →
      ZulipPasswordResetForm_save cfg makeToken urlsafeB64Encode reverseConfirm
          email realm users lang
        = ([], [⟨.info, "Password reset not allowed for user in LDAP domain"⟩]))
    ∧ (cfg.emailAuthEnabled = true → cfg.emailBelongsToLdap = false →
       realm.deactivated = true →
      ZulipPasswordResetForm_save cfg makeToken urlsafeB64Encode reverseConfirm
          email realm users lang
        = ([], [⟨.info, "Realm is deactivated"⟩]))
    ∧ (cfg.emailAuthEnabled = true → cfg.emailBelongsToLdap = false →
       realm.deactivated = false → cfg.rateLimiting = true →
       cfg.isLimited (RateLimitedPasswordResetByEmail_key email) = true →
      ZulipPasswordResetForm_save cfg makeToken urlsafeB64Encode reverseConfirm
          email realm users lang
        = ([], [⟨.info, "Too many password reset attempts for email " ++ email⟩])) := by
  refine ⟨fun h1 => ?_, fun h1 h2 => ?_, fun h1 h2 h3 => ?_, fun h1 h2 h3 h4 h5 => ?_⟩
  · simp [ZulipPasswordResetForm_save, h1]
  · simp [ZulipPasswordResetForm_save, h1, h2]
  · simp [ZulipPasswordResetForm_save, h1, h2, h3]
  · simp [ZulipPasswordResetForm_save, h1, h2, h3, h4,
      rate_limit_password_reset_form_by_email, h5]

/-- Witness for C7: each of the four early exits at a concrete
configuration. -/
theorem password_reset_early_exit_order_witness :
    (ZulipPasswordResetForm_save ⟨false, false, false, fun _ => false⟩
        (fun _ => "tok") (fun s => "b64-" ++ s)
        (fun uid token => "/confirm/" ++ uid ++ "/" ++ token) "bob@x.com"
        ⟨"acme", "Acme", "https://acme.example.com", false⟩ [] "de"
      = ([], [⟨.info, "Password reset attempted for bob@x.com"
          ++ " even though password auth is disabled."⟩]))
    ∧ (ZulipPasswordResetForm_save ⟨true, true, false, fun _ => false⟩
        (fun _ => "tok") (fun s => "b64-" ++ s)
        (fun uid token => "/confirm/" ++ uid ++ "/" ++ token) "bob@x.com"
        ⟨"acme", "Acme", "https://acme.example.com", false⟩ [] "de"
      = ([], [⟨.info, "Password reset not allowed for user in LDAP domain"⟩]))
    ∧ (ZulipPasswordResetForm_save ⟨true, false, false, fun _ => false⟩
        (fun _ => "tok") (fun s => "b64-" ++ s)
        (fun uid token => "/confirm/" ++ uid ++ "/" ++ token) "bob@x.com"
        ⟨"acme", "Acme", "https://acme.example.com", true⟩ [] "de"
      = ([], [⟨.info, "Realm is deactivated"⟩]))
    ∧ (ZulipPasswordResetForm_save ⟨true, false, true, fun _ => true⟩
        (fun _ => "tok") (fun s => "b64-" ++ s)
        (fun uid token => "/confirm/" ++ uid ++ "/" ++ token) "bob@x.com"
        ⟨"acme", "Acme", "https://acme.example.com", false⟩ [] "de"
      = ([], [⟨.info, "Too many password reset attempts for email bob@x.com"⟩])) :=
  ⟨(password_reset_early_exit_order ⟨false, false, false, fun _ => false⟩
      (fun _ => "tok") (fun s => "b64-" ++ s)
      (fun uid token => "/confirm/" ++ uid ++ "/" ++ token) "bob@x.com"
      ⟨"acme", "Acme", "https://acme.example.com", false⟩ [] "de").1 rfl,
   (password_reset_early_exit_order ⟨true, true, false, fun _ => false⟩
      (fun _ => "tok") (fun s => "b64-" ++ s)
      (fun uid token => "/confirm/" ++ uid ++ "/" ++ token) "bob@x.com"
      ⟨"acme", "Acme", "https://acme.example.com", false⟩ [] "de").2.1 rfl rfl,
   (password_reset_early_exit_order ⟨true, false, false, fun _ => false⟩
      (fun _ => "tok") (fun s => "b64-" ++ s)
      (fun uid token => "/confirm/" ++ uid ++ "/" ++ token) "bob@x.com"
      ⟨"acme", "Acme", "https://acme.example.com", true⟩ [] "de").2.2.1 rfl rfl rfl,
   (password_reset_early_exit_order ⟨true, false, true, fun _ => true⟩
      (fun _ => "tok") (fun s => "b64-" ++ s)
      (fun uid token => "/confirm/" ++ uid ++ "/" ++ token) "bob@x.com"
      ⟨"acme", "Acme", "https://acme.example.com", false⟩ [] "de").2.2.2
      rfl rfl rfl rfl rfl⟩

/-- Claim C8, counterexample.  The claim says the rate-limit key uses the
normalized submitted email, so two case variants of one address map to the
same counter.  In the code the key embeds the email exactly as submitted:
`Bob@x.com` and `bob@x.com` produce different keys, hence distinct
counters. -/
theorem password_reset_key_case_counterexample :
    RateLimitedPasswordResetByEmail_key "Bob@x.com"
      ≠ RateLimitedPasswordResetByEmail_key "bob@x.com" := by
  decide

/-- Claim C8 (amended): the rate-limit key is the composite of the fixed
namespace tag (the class name `RateLimitedPasswordResetByEmail`) and the
submitted email address exactly as submitted — case variants of one address
map to distinct counters — and `rate_limit_password_reset_form_by_email`
raises `RateLimited` if and only if the limiter reports that key limited. -/
theorem password_reset_rate_limit_key_spec (email : String)
    (isLimited : String → Bool) :
    RateLimitedPasswordResetByEmail_key email
        = "RateLimitedPasswordResetByEmail:" ++ email
    ∧ (rate_limit_password_reset_form_by_email isLimited email = .error ()
        ↔ isLimited (RateLimitedPasswordResetByEmail_key email) = true) := by
  refine ⟨rfl, ?_⟩
  unfold rate_limit_password_reset_form_by_email
  by_cases h : isLimited (RateLimitedPasswordResetByEmail_key email) = true <;>
    simp [h]

end ZulipForms
